import Mathlib

set_option maxRecDepth 100000

/-!
Shallow embedding of the Text2SPARQL knowledge-graph search service
(sparql_search_service), translated from the Python sources
sparql_utils/knowledgeGraphSearch.py, sparql_utils/initializer.py and
routers/set_mode.py.  Python strings are Lean String values, the remote
SPARQL endpoint is a function from the query string to its reply, Python
floats are modelled as rationals, and a raised Python exception is modelled
as none / an Option-valued endpoint reply.
-/

/-- Does the first character list start with the second one?  Building block
for the Python substring test. -/
def headMatch : List Char → List Char → Bool
  | _, [] => true
  | [], _ :: _ => false
  | a :: as, b :: bs => a == b && headMatch as bs

/-- Occurrence test: the needle occurs somewhere inside the haystack. -/
def occursIn (needle : List Char) : List Char → Bool
  | [] => needle.isEmpty
  | a :: as => headMatch (a :: as) needle || occursIn needle as

/-- Python `needle in hay` on strings (substring containment). -/
def strIn (needle hay : String) : Bool := occursIn needle.data hay.data

/-- Split a character list at every character satisfying p, keeping empty
pieces, exactly as Python str.split does with an explicit separator. -/
def splitP (p : Char → Bool) : List Char → List (List Char)
  | [] => [[]]
  | a :: as =>
    match splitP p as with
    | [] => [[]]
    | g :: gs => if p a then [] :: g :: gs else (a :: g) :: gs

/-- Python s.split(c) for a single-character separator c. -/
def pySplit (c : Char) (s : String) : List String :=
  (splitP (fun d => d == c) s.data).map (fun l => String.mk l)

/-- Python dict assignment d[k] = v on an insertion-ordered association
list: an existing key keeps its position and receives the new value, a new
key goes to the end.  This is how Python dicts iterate. -/
def dictInsert {α : Type} (k : String) (v : α) : List (String × α) → List (String × α)
  | [] => [(k, v)]
  | (k', v') :: rest => if k' = k then (k', v) :: rest else (k', v') :: dictInsert k v rest

/-- Python dict lookup d[k]; none models the KeyError on an absent key. -/
def dictGet {α : Type} (k : String) : List (String × α) → Option α
  | [] => none
  | (k', v) :: rest => if k' = k then some v else dictGet k rest

/-- Keep the first occurrence of every element, dropping later repeats; the
first argument accumulates the elements already seen. -/
def dedupFirstAux : List String → List String → List String
  | _, [] => []
  | seen, x :: xs =>
    if x ∈ seen then dedupFirstAux seen xs else x :: dedupFirstAux (seen ++ [x]) xs

/-- First-occurrence deduplication; used to model Python set/dict key
order deterministically. -/
def dedupFirst (l : List String) : List String := dedupFirstAux [] l

/-- Insert a scored pair into a list that is sorted by weakly decreasing
score, before the first entry whose score is not larger.  Folding the whole
list with this yields exactly Python sorted(.., key=score, reverse=True):
scores descending, ties keeping their original relative order. -/
def insertDesc (p : String × ℚ) : List (String × ℚ) → List (String × ℚ)
  | [] => [p]
  | q :: qs => if q.2 ≤ p.2 then p :: q :: qs else q :: insertDesc p qs

/-- Stable sort by descending score (Python sorted with reverse=True). -/
def sortDesc : List (String × ℚ) → List (String × ℚ)
  | [] => []
  | p :: ps => insertDesc p (sortDesc ps)

/-- QueryRunner.__tokenizer (knowledgeGraphSearch.py lines 366-387): split
the text on the space character and keep, in order, the tokens that are
longer than 2 characters. -/
def tokenizer (text : String) : List String :=
  (pySplit ' ' text).foldl (fun acc t => if 2 < t.length then acc ++ [t] else acc) []

/-- Modelled from the wording of claim C7: split the text on whitespace
characters and keep the tokens longer than 2 characters.  The code splits
on the space character only; this definition exists to be compared with
`tokenizer`. -/
def tokenizerWsSpec (text : String) : List String :=
  ((splitP (fun c => c.isWhitespace) text.data).map (fun l => String.mk l)).filter
    (fun t => decide (2 < t.length))

/-- The regex-filter loop of relationQuery / likeQuery and of the start/end
token loops of the semi queries (e.g. lines 121-125): append one conjunct
per token; the first conjunct, recognised by the accumulated string not yet
containing "regex", is written without a leading "&&". -/
def andRegexLoop (sparql : String) (tokens : List String) : String :=
  tokens.foldl
    (fun s t =>
      if strIn "regex" s then s ++ " && regex(?label, \"" ++ t ++ "\", \"i\") "
      else s ++ " regex(?label, \"" ++ t ++ "\", \"i\") ")
    sparql

/-- The mid-token loop of the semi queries (lines 173-178 and 286-291): as
`andRegexLoop`, but the first conjunct is written with a leading "||". -/
def orRegexLoop (sparql : String) (tokens : List String) : String :=
  tokens.foldl
    (fun s t =>
      if strIn "regex" s then s ++ " && regex(?label, \"" ++ t ++ "\", \"i\") "
      else s ++ " || regex(?label, \"" ++ t ++ "\", \"i\") ")
    sparql

/-- QueryRunner.relationQuery (lines 102-133): the generated query string. -/
def relationQuerySparql (pfxEntity : String) (tokens : List String) (limit : ℕ) : String :=
  andRegexLoop
      "SELECT ?o (COUNT(DISTINCT ?r) AS ?relationCount) WHERE \x7b ?o rdfs:label ?label . FILTER ("
      tokens
    ++ " && regex(str(?o), CONCAT(\"^\", STR(" ++ pfxEntity
    ++ ":))) ) ?s ?r ?o . \x7d GROUP BY ?o ORDER BY DESC(?relationCount) LIMIT " ++ toString limit

/-- mid_tokens of semiRelationQuery (line 152): tokens[1:-1] when more than
2 tokens exist, else the empty list. -/
def semiRelMid (tokens : List String) : List String :=
  if 2 < tokens.length then (tokens.drop 1).dropLast else []

/-- sparql3 of semiRelationQuery (lines 156 and 172-178): the interior-token
clause, built only when the mid-token list has more than one element. -/
def semiRelS3 (tokens : List String) : String :=
  if 1 < (semiRelMid tokens).length then orRegexLoop "" (semiRelMid tokens) else ""

/-- QueryRunner.semiRelationQuery (lines 135-186): the generated query
string (start tokens = tokens[:-1], end tokens = tokens[1:]). -/
def semiRelationSparql (pfxEntity : String) (tokens : List String) (limit : ℕ) : String :=
  "SELECT ?o (COUNT(DISTINCT ?r) AS ?relationCount) WHERE \x7b?o rdfs:label ?label . FILTER(("
    ++ andRegexLoop "" tokens.dropLast ++ " || " ++ andRegexLoop "" (tokens.drop 1)
    ++ semiRelS3 tokens
    ++ ") && regex(str(?o), CONCAT(\"^\", STR(" ++ pfxEntity
    ++ ":))) ) ?s ?r ?o . \x7d GROUP BY ?o ORDER BY DESC(?relationCount) LIMIT " ++ toString limit

/-- QueryRunner.likeQuery (lines 217-247): the generated query string. -/
def likeQuerySparql (pfxEntity : String) (tokens : List String) (limit : ℕ) : String :=
  andRegexLoop "SELECT DISTINCT ?o WHERE \x7b?o rdfs:label ?label . FILTER (" tokens
    ++ "&& regex(str(?o), CONCAT(\"^\", STR(" ++ pfxEntity ++ ":))) ) \x7d LIMIT "
    ++ toString limit

/-- mid_tokens of semiLikeQuery (line 265): tokens[1:-1] when more than 3
tokens exist, else the empty list. -/
def semiLikeMid (tokens : List String) : List String :=
  if 3 < tokens.length then (tokens.drop 1).dropLast else []

/-- sparql3 of semiLikeQuery (lines 269 and 285-291): the interior-token
clause, built only when the mid-token list is non-empty. -/
def semiLikeS3 (tokens : List String) : String :=
  if 0 < (semiLikeMid tokens).length then orRegexLoop "" (semiLikeMid tokens) else ""

/-- QueryRunner.semiLikeQuery (lines 249-299): the generated query string. -/
def semiLikeSparql (pfxEntity : String) (tokens : List String) (limit : ℕ) : String :=
  "SELECT DISTINCT ?o WHERE \x7b?o rdfs:label ?label . FILTER (("
    ++ andRegexLoop "" tokens.dropLast ++ " || " ++ andRegexLoop "" (tokens.drop 1)
    ++ semiLikeS3 tokens
    ++ ") && regex(str(?o), CONCAT(\"^\", STR(" ++ pfxEntity ++ ":))) ) \x7d LIMIT "
    ++ toString limit

/-- QueryRunner.relationSearch (lines 73-100) against an endpoint ep; the
endpoint answers none when the SPARQL call raises, in which case the bare
except yields mode error and an empty answer.  Besides the mode/answer pair
the trace of the query strings actually issued is recorded. -/
def relationSearchT (ep : String → Option (List String)) (pfxEntity q : String) (limit : ℕ) :
    (String × List String) × List String :=
  let rq := relationQuerySparql pfxEntity (tokenizer q) limit
  match ep rq with
  | none => (("error", []), [rq])
  | some answer =>
    if answer.length = 0 then
      let sq := semiRelationSparql pfxEntity (tokenizer q) limit
      match ep sq with
      | none => (("error", []), [rq, sq])
      | some answer2 => (("semiRelationQuery", answer2), [rq, sq])
    else (("relationQuery", answer), [rq])

/-- The mode/answer pair of relationSearch. -/
def relationSearch (ep : String → Option (List String)) (pfxEntity q : String) (limit : ℕ) :
    String × List String :=
  (relationSearchT ep pfxEntity q limit).1

/-- QueryRunner.textSearch (lines 188-215), analogous to relationSearch. -/
def textSearchT (ep : String → Option (List String)) (pfxEntity q : String) (limit : ℕ) :
    (String × List String) × List String :=
  let lq := likeQuerySparql pfxEntity (tokenizer q) limit
  match ep lq with
  | none => (("error", []), [lq])
  | some answer =>
    if answer.length = 0 then
      let sq := semiLikeSparql pfxEntity (tokenizer q) limit
      match ep sq with
      | none => (("error", []), [lq, sq])
      | some answer2 => (("semiLikeQuery", answer2), [lq, sq])
    else (("likeQuery", answer), [lq])

/-- The mode/answer pair of textSearch. -/
def textSearch (ep : String → Option (List String)) (pfxEntity q : String) (limit : ℕ) :
    String × List String :=
  (textSearchT ep pfxEntity q limit).1

/-- The search stage of QueryRunner.runQuery (lines 46-53 and 65-68): both
strategies run against the same endpoint, relation limit 10 and text limit
20; the two components fill the relation_mode and text_mode fields of the
final result. -/
def searchModes (ep : String → Option (List String)) (pfxEntity q : String) :
    (String × List String) × (String × List String) :=
  (relationSearch ep pfxEntity q 10, textSearch ep pfxEntity q 20)

/-- Query execution inside relationSearch fails: the exact query raises, or
it returns zero rows and the semi query raises. -/
def relFails (ep : String → Option (List String)) (pfxEntity q : String) (limit : ℕ) : Prop :=
  ep (relationQuerySparql pfxEntity (tokenizer q) limit) = none ∨
    (ep (relationQuerySparql pfxEntity (tokenizer q) limit) = some [] ∧
      ep (semiRelationSparql pfxEntity (tokenizer q) limit) = none)

/-- Query execution inside textSearch fails: the exact query raises, or it
returns zero rows and the semi query raises. -/
def textFails (ep : String → Option (List String)) (pfxEntity q : String) (limit : ℕ) : Prop :=
  ep (likeQuerySparql pfxEntity (tokenizer q) limit) = none ∨
    (ep (likeQuerySparql pfxEntity (tokenizer q) limit) = some [] ∧
      ep (semiLikeSparql pfxEntity (tokenizer q) limit) = none)

/-- The text-purity score (lines 406-410): the number of query tokens that
occur as a substring of the URI, divided by the character length of the
URI. -/
def scoreOf (tokens : List String) (uri : String) : ℚ :=
  ((tokens.filter (fun t => strIn t uri)).length : ℚ) / (uri.length : ℚ)

/-- QueryRunner.__sortingTextPurResults (lines 389-414): every text result
that is absent from the relation results is scored into a Python dict, the
dict items are sorted by descending score (Python sorted is stable), and
the keys are returned. -/
def sortingTextPurResults (query : String) (relation_results text_results : List String) :
    List String :=
  let tokens := tokenizer query
  let scored := text_results.foldl
    (fun acc u => if u ∈ relation_results then acc else dictInsert u (scoreOf tokens u) acc) []
  (sortDesc scored).map Prod.fst

/-- QueryRunner.__mergeResults (lines 416-441). -/
def mergeResults (query_text : String) (relation_results text_results : List String) :
    List String :=
  let stp := sortingTextPurResults query_text relation_results text_results
  if relation_results.length = 0 ∧ stp.length = 0 then []
  else if relation_results.length = 0 then stp
  else if stp.length = 0 then relation_results
  else if 2 < relation_results.length ∧ 2 < stp.length then
    relation_results.take 2 ++ stp.take 2 ++ relation_results.drop 2 ++ stp.drop 2
  else if 2 < relation_results.length then
    relation_results.take 2 ++ stp ++ relation_results.drop 2
  else relation_results ++ stp

/-- Modelled from the wording of claim C1: each text-list URI that is not
already present in the relation list, paired with its score (a URI listed
twice is a single URI, kept at its first position). -/
def textPurityScoredSpec (query : String) (relation_results text_results : List String) :
    List (String × ℚ) :=
  (dedupFirst (text_results.filter (fun u => decide (u ∉ relation_results)))).map
    (fun u => (u, scoreOf (tokenizer query) u))

/-- Modelled from the wording of claim C1: the scored URIs sorted by
descending score, ties keeping their original relative order. -/
def textPuritySpec (query : String) (relation_results text_results : List String) :
    List String :=
  (sortDesc (textPurityScoredSpec query relation_results text_results)).map Prod.fst

/-- Modelled from the wording of claim C1: the case split of the merge
applied to the sorted text-purity list. -/
def mergeSpec (query_text : String) (relation_results text_results : List String) :
    List String :=
  let stp := textPuritySpec query_text relation_results text_results
  if relation_results.length = 0 ∧ stp.length = 0 then []
  else if relation_results.length = 0 then stp
  else if stp.length = 0 then relation_results
  else if 2 < relation_results.length ∧ 2 < stp.length then
    relation_results.take 2 ++ stp.take 2 ++ relation_results.drop 2 ++ stp.drop 2
  else if 2 < relation_results.length then
    relation_results.take 2 ++ stp ++ relation_results.drop 2
  else relation_results ++ stp

/-- The zero-width character U+200C removed by __removeBadLinks. -/
def zwChar : Char := Char.ofNat 8204

/-- Clean one local-name piece (line 462): remove every parenthesis and
every U+200C character. -/
def cleanPiece (s : String) : String :=
  String.mk (s.data.filter (fun c => !(c == '(') && !(c == ')') && !(c == zwChar)))

/-- The inner loop of __removeBadLinks (lines 458-466): the link is good
when some cleaned piece of link[31:], split on underscore, equals one of
the query tokens. -/
def goodLink (query_tokens : List String) (link : String) : Bool :=
  (pySplit '_' (String.mk (link.data.drop 31))).any
    (fun piece => decide (cleanPiece piece ∈ query_tokens))

/-- QueryRunner.__removeBadLinks (lines 443-471). -/
def removeBadLinks (links : List String) (query : String) : List String :=
  let query_tokens := tokenizer query
  links.foldl (fun acc link => if goodLink query_tokens link then acc ++ [link] else acc) []

/-- The per-category score of __categoryScoring (lines 543-548).  The Python
code iterates over the characters of the stored label string, counts those
that occur in the category URI, and divides by the URI length. -/
def catScore (labels : String) (category : String) : ℚ :=
  ((labels.data.filter (fun c => category.data.contains c)).length : ℚ) / (category.length : ℚ)

/-- QueryRunner.__categoryScoring (lines 528-551); none models the Python
exceptions (ontology[0] on an empty list, a missing index key). -/
def categoryScoring (index : List (String × String)) (ontology categories : List String) :
    Option (List (String × ℚ)) := do
  let first ← ontology.head?
  let labels ← dictGet first index
  some (sortDesc (categories.foldl (fun acc c => dictInsert c (catScore labels c) acc) []))

/-- statistics.mean over the rationals; none models the StatisticsError that
Python raises on an empty sequence. -/
def meanQ (l : List ℚ) : Option ℚ :=
  match l with
  | [] => none
  | _ => some (l.sum / (l.length : ℚ))

/-- The mean category score (line 511) as a total value, for claims about
non-empty score lists. -/
def meanScore (scored : List (String × ℚ)) : ℚ :=
  ((scored.map Prod.snd).sum) / ((scored.length : ℚ))

/-- The top-category filter (line 514): the categories scoring at least the
mean of all the scores. -/
def topCategory (scored : List (String × ℚ)) : List String :=
  (scored.filter (fun p => decide (meanScore scored ≤ p.2))).map Prod.fst

/-- categoriesQL0 of __getSimilarEntries (lines 567-568): one required
triple per ontology value. -/
def ontoQL (ontology : List String) : String :=
  String.join (ontology.enum.map
    (fun p => " ?s ?p" ++ toString ((p.1 + 1) * 100) ++ " <" ++ p.2 ++ ">. "))

/-- The category triples for the top num categories (lines 573-574). -/
def catQL (category : List (String × ℚ)) (num : ℕ) : String :=
  String.join ((List.range num).map
    (fun i => " ?s ?p" ++ toString (i + 1) ++ " <" ++ (category.getD i ("", 0)).1 ++ ">. "))

/-- One relaxation query (line 575). -/
def simQuery (base : String) (category : List (String × ℚ)) (num : ℕ) : String :=
  "SELECT ?s WHERE \x7b" ++ base ++ catQL category num ++ " \x7d"

/-- The while loop of __getSimilarEntries (lines 571-580), with the queried
category counts recorded in the second component.  Python list(set(..)) is
modelled as first-occurrence deduplication; the claims settled here depend
only on the sizes of the deduplicated lists, not on their order. -/
def simLoopT (ep : String → List String) (base : String) (category : List (String × ℚ))
    (entity : String) : ℕ → List String → List String × List ℕ
  | 0, sim_ents => (sim_ents, [])
  | n + 1, _ =>
    let sim := (dedupFirst (ep (simQuery base category (n + 1)))).filter
      (fun e => decide (e ≠ entity))
    if 1 < sim.length then (sim, [n + 1])
    else
      let r := simLoopT ep base category entity n sim
      (r.1, (n + 1) :: r.2)

/-- QueryRunner.__getSimilarEntries (lines 553-591). -/
def getSimilarEntries (ep : String → List String) (ontology : List String)
    (category : List (String × ℚ)) (entity : String) : List String :=
  let base := ontoQL ontology
  if 3 < category.length then
    let sim := (simLoopT ep base category entity 3 []).1
    if 10 < sim.length then sim.take 10 else sim
  else
    let sim := ep ("SELECT ?s WHERE \x7b" ++ base ++ " \x7d")
    if 10 < sim.length then sim.take 10 else sim

/-- Modelled from the wording of claim C4: relax through the top 3, 2, 1, 0
categories, stopping as soon as more than 1 distinct result (original
entity excluded) is obtained or the category count reaches 0, the count-0
query carrying the ontology constraints only. -/
def simLoopSpec (ep : String → List String) (base : String) (category : List (String × ℚ))
    (entity : String) : ℕ → List String
  | 0 => (dedupFirst (ep (simQuery base category 0))).filter (fun e => decide (e ≠ entity))
  | n + 1 =>
    let sim := (dedupFirst (ep (simQuery base category (n + 1)))).filter
      (fun e => decide (e ≠ entity))
    if 1 < sim.length then sim else simLoopSpec ep base category entity n

/-- Modelled from the wording of claim C4: the whole similarity finder as
the claim states it. -/
def getSimilarEntriesSpec (ep : String → List String) (ontology : List String)
    (category : List (String × ℚ)) (entity : String) : List String :=
  let base := ontoQL ontology
  if 3 < category.length then (simLoopSpec ep base category entity 3).take 10
  else (ep ("SELECT ?s WHERE \x7b" ++ base ++ " \x7d")).take 10

/-- Claim C4 amended: the relaxation stops after the top-1 query; the
ontology-only query is issued only in the branch with at most 3 scored
categories. -/
def simLoopAm (ep : String → List String) (base : String) (category : List (String × ℚ))
    (entity : String) : ℕ → List String → List String
  | 0, sim_ents => sim_ents
  | n + 1, _ =>
    let sim := (dedupFirst (ep (simQuery base category (n + 1)))).filter
      (fun e => decide (e ≠ entity))
    if 1 < sim.length then sim else simLoopAm ep base category entity n sim

/-- Claim C4 amended: the similarity finder with the corrected relaxation
schedule. -/
def getSimilarEntriesAm (ep : String → List String) (ontology : List String)
    (category : List (String × ℚ)) (entity : String) : List String :=
  let base := ontoQL ontology
  if 3 < category.length then
    let sim := simLoopAm ep base category entity 3 []
    if 10 < sim.length then sim.take 10 else sim
  else
    let sim := ep ("SELECT ?s WHERE \x7b" ++ base ++ " \x7d")
    if 10 < sim.length then sim.take 10 else sim

/-- The prefix configuration dict with the keys entity, category and type
(the last one is the instance-of-class predicate). -/
structure Prefixes where
  entity : String
  category : String
  typePred : String

/-- The engine state built by QueryRunner.__init__ (lines 5-21). -/
structure Engine where
  url : String
  instance2labels : List (String × String)
  prefixes : Prefixes

/-- The index-build query of __instance2labels (line 311). -/
def instanceLabelQuery : String :=
  "SELECT DISTINCT ?instance ?label WHERE \x7b ?instance rdf:type owl:Class. ?instance rdfs:label ?label \x7d"

/-- The dictionary build of __instance2labels (lines 314-320) from the rows
of instance/label bindings. -/
def buildIndex (rows : List (String × String)) : List (String × String) :=
  rows.foldl (fun acc r => dictInsert r.1 r.2 acc) []

/-- QueryRunner construction (lines 6-21): the raw endpoint answers the
index-build query with the instance/label rows, or none when the call
raises; on none the whole construction fails and no engine value exists. -/
def mkQueryRunner (epRaw : String → Option (List (String × String))) (url : String)
    (pfx : Prefixes) : Option Engine :=
  match epRaw instanceLabelQuery with
  | none => none
  | some rows => some ⟨url, buildIndex rows, pfx⟩

/-- The server url hard-wired in initializer.py. -/
def serverUrl : String := "192.168.1.1:port/sparql"

/-- initializer.update_mode (initializer.py lines 7-12): build a fresh
engine; none models the propagated construction failure, in which case the
assignment to the global engine reference never happens. -/
def update_mode (epRaw : String → Option (List (String × String))) (mode : Prefixes) :
    Option Engine :=
  mkQueryRunner epRaw serverUrl mode

/-- routers/set_mode.py set_mode (lines 13-25): on failure the previous
engine stays active and the route answers failed/401; on success the fully
built new engine becomes active with success/200. -/
def set_mode (epRaw : String → Option (List (String × String))) (current : Engine)
    (mode : Prefixes) : Engine × String × ℕ :=
  match update_mode epRaw mode with
  | none => (current, "failed", 401)
  | some e => (e, "success", 200)

/-- The per-entity enrichment record of __getEntityInformation. -/
structure EntityInfo where
  similar_entities : List String
  categories : List String
  ontology : List String
  income_entities : List String
  outcome_entities : List String

/-- The income-entities query (line 487). -/
def incomeQuery (pfx : Prefixes) (uri : String) : String :=
  "SELECT DISTINCT ?a WHERE \x7b ?a ?b <" ++ uri
    ++ ">. FILTER (regex(str(?a), CONCAT(\"^\", STR(" ++ pfx.entity ++ ":)))) \x7d"

/-- The outcome-entities query (line 490). -/
def outcomeQuery (pfx : Prefixes) (uri : String) : String :=
  "SELECT DISTINCT ?b WHERE \x7b <" ++ uri
    ++ "> ?a ?b . FILTER (regex(str(?b), CONCAT(\"^\", STR(" ++ pfx.entity ++ ":)))) \x7d"

/-- The category query (line 493). -/
def categoryQuery (pfx : Prefixes) (uri : String) : String :=
  "SELECT DISTINCT ?b WHERE \x7b <" ++ uri
    ++ "> ?a ?b . FILTER (regex(str(?b), CONCAT(\"^\", STR(" ++ pfx.category ++ ":)))) \x7d"

/-- The ontology query (line 496). -/
def ontologyQuery (pfx : Prefixes) (uri : String) : String :=
  "SELECT DISTINCT ?b WHERE \x7b <" ++ uri ++ "> " ++ pfx.typePred ++ " ?b . \x7d"

/-- QueryRunner.__getEntityInformation (lines 473-526); the endpoint is
total here and none models the Python exceptions of the enrichment
arithmetic (category scoring and statistics.mean). -/
def getEntityInformation (ep : String → List String) (index : List (String × String))
    (pfx : Prefixes) (entity_uri : String) : Option EntityInfo := do
  let category_links := ep (categoryQuery pfx entity_uri)
  let ontology_links := ep (ontologyQuery pfx entity_uri)
  let income_links := ep (incomeQuery pfx entity_uri)
  let outcome_links := ep (outcomeQuery pfx entity_uri)
  let sorted_category ← categoryScoring index ontology_links category_links
  let similar := (getSimilarEntries ep ontology_links sorted_category entity_uri).filter
    (fun e => decide (e ≠ entity_uri))
  let m ← meanQ (sorted_category.map Prod.snd)
  let top := (sorted_category.filter (fun p => decide (m ≤ p.2))).map Prod.fst
  some ⟨similar, top, ontology_links, income_links, outcome_links⟩

/-- Proof helper: the key sequence produced by the dict build of
__sortingTextPurResults. -/
def addKeys (relation_results : List String) : List String → List String → List String
  | ks, [] => ks
  | ks, u :: us =>
    if u ∈ relation_results then addKeys relation_results ks us
    else if u ∈ ks then addKeys relation_results ks us
    else addKeys relation_results (ks ++ [u]) us

/-- Concrete endpoint for claims about tier fallback: the exact relation
query succeeds with zero rows, every other call raises. -/
def epSemiFail : String → Option (List String) := fun s =>
  if s = relationQuerySparql "fkgr" (tokenizer "aaa") 10 then some [] else none

/-- Concrete endpoint answering every query with one row. -/
def epAllX : String → Option (List String) := fun _ => some ["x"]

/-- Concrete endpoint where only the exact text query succeeds, so the
relation strategy fails. -/
def epTextOnly : String → Option (List String) := fun s =>
  if s = likeQuerySparql "fkgr" (tokenizer "aaa") 20 then some ["t1"] else none

/-- Concrete endpoint agreeing with epTextOnly on the text queries but
answering the exact relation query as well. -/
def epBothOk : String → Option (List String) := fun s =>
  if s = likeQuerySparql "fkgr" (tokenizer "aaa") 20 then some ["t1"]
  else if s = relationQuerySparql "fkgr" (tokenizer "aaa") 10 then some ["r1"] else none

/-- The prefix configuration of initializer.py. -/
def pfxW : Prefixes := ⟨"fkgr", "fkgc", "rdf:instanceOf"⟩

/-- A concrete engine value. -/
def engW : Engine := ⟨serverUrl, [], pfxW⟩

/-- A raw endpoint whose every call raises. -/
def epRawFail : String → Option (List (String × String)) := fun _ => none

/-- A total endpoint under which an entity has one ontology link and no
categories. -/
def epNoCats : String → List String := fun s =>
  if s = ontologyQuery pfxW "http://e/E" then ["O1"] else []

/-- A concrete one-element ontology list. -/
def ontoW : List String := ["O1"]

/-- Four scored categories, so the similarity finder relaxes. -/
def catsW : List (String × ℚ) := [("c1", 4), ("c2", 3), ("c3", 2), ("c4", 1)]

/-- A total endpoint answering only the ontology-only similarity query with
three entities; every category-constrained relaxation query is empty. -/
def epRelax : String → List String := fun q =>
  if q = "SELECT ?s WHERE \x7b ?s ?p100 <O1>.  \x7d" then ["a", "b", "c"] else []

/-- Folding with conditional append equals appending the filtered list
(used for the Python accumulate-into-a-list loops). -/
theorem foldl_ite_append (p : String → Bool) :
    ∀ (l acc : List String),
      l.foldl (fun acc x => if p x then acc ++ [x] else acc) acc = acc ++ l.filter p := by
  intro l
  induction l with
  | nil => intro acc; simp
  | cons x xs ih =>
    intro acc
    by_cases h : p x = true
    · simp [List.foldl_cons, h, ih, List.filter_cons]
    · simp [List.foldl_cons, h, ih, List.filter_cons]

/-- The tokenizer loop is the length filter over the space split. -/
theorem tokenizer_eq_filter (text : String) :
    tokenizer text = (pySplit ' ' text).filter (fun t => decide (2 < t.length)) := by
  have h := foldl_ite_append (fun t => decide (2 < t.length)) (pySplit ' ' text) []
  simpa [tokenizer] using h

/-- C7 counterexample: the tokenizer does not split on general whitespace
(a tab survives inside a token), and the claimed example output for
"the cat sat" is wrong because "the" has length 3 and is kept. -/
theorem tokenizer_whitespace_cex :
    tokenizer "the cat sat" = ["the", "cat", "sat"] ∧
    tokenizer "the cat sat" ≠ ["cat", "sat"] ∧
    tokenizer "ab\tcd" = ["ab\tcd"] ∧
    tokenizerWsSpec "ab\tcd" = [] := by decide

/-- C7 (amended): the tokenizer splits the text on the space character and
returns exactly the tokens of length greater than 2 characters, in their
original order with duplicates preserved and no normalization; for the
input "the cat sat" the output is ["the", "cat", "sat"], and a token of
length 2 or less never appears in the output. -/
theorem tokenizer_space_split (text : String) :
    tokenizer text = (pySplit ' ' text).filter (fun t => decide (2 < t.length)) ∧
    (∀ t ∈ tokenizer text, 2 < t.length) ∧
    tokenizer "the cat sat" = ["the", "cat", "sat"] := by
  refine ⟨tokenizer_eq_filter text, ?_, by decide⟩
  intro t ht
  rw [tokenizer_eq_filter text] at ht
  have := List.of_mem_filter ht
  simpa using this

/-- Witness for tokenizer_space_split at a concrete input. -/
theorem tokenizer_space_split_witness :
    2 < "cat".length ∧ tokenizer "the cat sat" = ["the", "cat", "sat"] :=
  ⟨(tokenizer_space_split "the cat sat").2.1 "cat" (by decide),
   (tokenizer_space_split "the cat sat").2.2⟩

/-- The or-regex loop never shrinks the accumulated string. -/
theorem orRegexLoop_length :
    ∀ (ts : List String) (s : String), s.length ≤ (orRegexLoop s ts).length := by
  intro ts
  induction ts with
  | nil => intro s; simp [orRegexLoop]
  | cons t ts ih =>
    intro s
    have h0 : orRegexLoop s (t :: ts)
        = orRegexLoop
            (if strIn "regex" s then s ++ " && regex(?label, \"" ++ t ++ "\", \"i\") "
             else s ++ " || regex(?label, \"" ++ t ++ "\", \"i\") ") ts := rfl
    rw [h0]
    refine le_trans ?_ (ih _)
    by_cases h : strIn "regex" s = true
    · simp [h, String.length_append]; omega
    · simp [h, String.length_append]; omega

/-- The or-regex loop started from the empty string on a non-empty token
list produces a non-empty clause. -/
theorem orRegexLoop_ne (t : String) (ts : List String) : orRegexLoop "" (t :: ts) ≠ "" := by
  intro h
  have h0 : orRegexLoop "" (t :: ts)
      = orRegexLoop ("" ++ " || regex(?label, \"" ++ t ++ "\", \"i\") ") ts := rfl
  have hlen := orRegexLoop_length ts ("" ++ " || regex(?label, \"" ++ t ++ "\", \"i\") ")
  rw [← h0, h] at hlen
  have hA : 0 < (" || regex(?label, \"" : String).length := by decide
  simp [String.length_append] at hlen
  omega

/-- C3 counterexample: with exactly 3 tokens (more than 2), the Relation
Search semi tier builds no interior-token clause, contradicting the claimed
greater-than-2 threshold. -/
theorem mid_clause_three_token_cex :
    2 < (tokenizer "aaa bbb ccc").length ∧ semiRelS3 (tokenizer "aaa bbb ccc") = "" := by
  decide

/-- C3 (amended): in both the Relation Search semi tier and the Text Search
semi tier, the interior-token clause is included in the generated query
exactly when the tokenized query has more than 3 tokens; the two strategies
compute their mid-token lists differently, but the effective inclusion
threshold is the same. -/
theorem mid_clause_threshold (tokens : List String) :
    (semiRelS3 tokens ≠ "" ↔ 3 < tokens.length) ∧
    (semiLikeS3 tokens ≠ "" ↔ 3 < tokens.length) := by
  have hdl : ((tokens.drop 1).dropLast).length = tokens.length - 2 := by
    simp [List.length_dropLast, List.length_drop]; omega
  constructor
  · by_cases h : 3 < tokens.length
    · have h2 : 2 < tokens.length := by omega
      have hmid : semiRelMid tokens = (tokens.drop 1).dropLast := by simp [semiRelMid, h2]
      have hmlen : 1 < (semiRelMid tokens).length := by rw [hmid]; omega
      have hne : semiRelS3 tokens ≠ "" := by
        cases hc : semiRelMid tokens with
        | nil => rw [hc] at hmlen; simp at hmlen
        | cons m ms =>
          have hs : semiRelS3 tokens = orRegexLoop "" (m :: ms) := by
            rw [semiRelS3, if_pos hmlen, hc]
          rw [hs]; exact orRegexLoop_ne m ms
      simp [hne, h]
    · have he : semiRelS3 tokens = "" := by
        by_cases h2 : 2 < tokens.length
        · have hmid : semiRelMid tokens = (tokens.drop 1).dropLast := by simp [semiRelMid, h2]
          have : ¬ 1 < (semiRelMid tokens).length := by rw [hmid]; omega
          simp [semiRelS3, this]
        · have hmid : semiRelMid tokens = [] := by simp [semiRelMid, h2]
          simp [semiRelS3, hmid]
      simp [he, h]
  · by_cases h : 3 < tokens.length
    · have hmid : semiLikeMid tokens = (tokens.drop 1).dropLast := by simp [semiLikeMid, h]
      have hmlen : 0 < (semiLikeMid tokens).length := by rw [hmid]; omega
      have hne : semiLikeS3 tokens ≠ "" := by
        cases hc : semiLikeMid tokens with
        | nil => rw [hc] at hmlen; simp at hmlen
        | cons m ms =>
          have hs : semiLikeS3 tokens = orRegexLoop "" (m :: ms) := by
            rw [semiLikeS3, if_pos hmlen, hc]
          rw [hs]; exact orRegexLoop_ne m ms
      simp [hne, h]
    · have hmid : semiLikeMid tokens = [] := by simp [semiLikeMid, h]
      have he : semiLikeS3 tokens = "" := by simp [semiLikeS3, hmid]
      simp [he, h]

/-- Witness for mid_clause_threshold at a concrete 4-token input. -/
theorem mid_clause_threshold_witness :
    semiRelS3 (tokenizer "aaa bbb ccc dddd") ≠ "" ∧
    semiLikeS3 (tokenizer "aaa bbb ccc dddd") ≠ "" :=
  ⟨(mid_clause_threshold (tokenizer "aaa bbb ccc dddd")).1.mpr (by decide),
   (mid_clause_threshold (tokenizer "aaa bbb ccc dddd")).2.mpr (by decide)⟩

/-- C5: the link filter keeps a candidate exactly when some cleaned piece
of its local name (the URI beyond the 31-character namespace offset, split
on underscore, with parentheses and U+200C removed) equals a query token;
the output is the order-preserving filter of the input. -/
theorem link_filter_rule (links : List String) (query : String) :
    removeBadLinks links query = links.filter (goodLink (tokenizer query)) ∧
    ∀ link : String,
      goodLink (tokenizer query) link = true ↔
        ∃ piece ∈ pySplit '_' (String.mk (link.data.drop 31)),
          cleanPiece piece ∈ tokenizer query := by
  constructor
  · simpa [removeBadLinks] using foldl_ite_append (goodLink (tokenizer query)) links []
  · intro link
    simp [goodLink, List.any_eq_true]

/-- Witness for link_filter_rule at a concrete input. -/
theorem link_filter_rule_witness :
    removeBadLinks ["0123456789012345678901234567890cat_x",
        "0123456789012345678901234567890yyy"] "cat dog"
      = List.filter (goodLink (tokenizer "cat dog"))
          ["0123456789012345678901234567890cat_x", "0123456789012345678901234567890yyy"] :=
  (link_filter_rule ["0123456789012345678901234567890cat_x",
    "0123456789012345678901234567890yyy"] "cat dog").1

/-- Updating a key that is already present in a score table whose values
are given by f leaves the table unchanged. -/
theorem dictInsert_map_mem (f : String → ℚ) (u : String) :
    ∀ ks : List String, u ∈ ks →
      dictInsert u (f u) (ks.map (fun k => (k, f k))) = ks.map (fun k => (k, f k)) := by
  intro ks
  induction ks with
  | nil => intro h; cases h
  | cons k ks ih =>
    intro h
    by_cases hk : k = u
    · subst hk; simp [dictInsert]
    · have hu : u ∈ ks := by
        rcases List.mem_cons.mp h with h1 | h1
        · exact absurd h1.symm hk
        · exact h1
      simp [dictInsert, hk, ih hu]

/-- Inserting a fresh key appends it at the end of the table. -/
theorem dictInsert_map_notMem (f : String → ℚ) (u : String) (v : ℚ) :
    ∀ ks : List String, u ∉ ks →
      dictInsert u v (ks.map (fun k => (k, f k))) = ks.map (fun k => (k, f k)) ++ [(u, v)] := by
  intro ks
  induction ks with
  | nil => intro _; simp [dictInsert]
  | cons k ks ih =>
    intro h
    have hk : ¬ k = u := fun he => h (by simp [he])
    have hu : u ∉ ks := fun hm => h (List.mem_cons_of_mem _ hm)
    simp [dictInsert, hk, ih hu]

/-- The dict-building fold of __sortingTextPurResults produces the score
table of the key sequence computed by addKeys. -/
theorem foldl_dict_eq_addKeys (rel : List String) (f : String → ℚ) :
    ∀ txt ks : List String,
      txt.foldl (fun acc u => if u ∈ rel then acc else dictInsert u (f u) acc)
          (ks.map (fun k => (k, f k)))
        = (addKeys rel ks txt).map (fun k => (k, f k)) := by
  intro txt
  induction txt with
  | nil => intro ks; simp [addKeys]
  | cons u us ih =>
    intro ks
    by_cases h1 : u ∈ rel
    · simp only [List.foldl_cons, if_pos h1, addKeys, ih]
    · by_cases h2 : u ∈ ks
      · simp only [List.foldl_cons, if_neg h1, addKeys, if_pos h2,
          dictInsert_map_mem f u ks h2, ih]
      · simp only [List.foldl_cons, if_neg h1, dictInsert_map_notMem f u (f u) ks h2]
        have hmap : ks.map (fun k => (k, f k)) ++ [(u, f u)]
            = (ks ++ [u]).map (fun k => (k, f k)) := by simp
        rw [hmap, ih (ks ++ [u])]
        simp [addKeys, h1, h2]

/-- The key sequence of the dict build is the seen part followed by the
first-occurrence deduplication of the new non-relation entries. -/
theorem addKeys_eq_dedup (rel : List String) :
    ∀ txt ks : List String,
      addKeys rel ks txt
        = ks ++ dedupFirstAux ks (txt.filter (fun u => decide (u ∉ rel))) := by
  intro txt
  induction txt with
  | nil => intro ks; simp [addKeys, dedupFirstAux]
  | cons u us ih =>
    intro ks
    by_cases h1 : u ∈ rel
    · have hd : decide (u ∉ rel) = false := by simp [h1]
      simp [addKeys, h1, List.filter_cons, hd, ih]
    · have hd : decide (u ∉ rel) = true := by simp [h1]
      by_cases h2 : u ∈ ks
      · simp [addKeys, h1, h2, List.filter_cons, hd, dedupFirstAux, ih]
      · simp [addKeys, h1, h2, List.filter_cons, hd, dedupFirstAux, ih (ks ++ [u]),
          List.append_assoc]

/-- The engine's text-purity sorter agrees with the claim-side scoring
pipeline. -/
theorem sortingTextPur_eq_spec (query : String) (rel txt : List String) :
    sortingTextPurResults query rel txt = textPuritySpec query rel txt := by
  have h0 : ([] : List (String × ℚ))
      = ([] : List String).map (fun k => (k, scoreOf (tokenizer query) k)) := rfl
  have h1 := foldl_dict_eq_addKeys rel (scoreOf (tokenizer query)) txt []
  have h2 := addKeys_eq_dedup rel txt []
  simp only [sortingTextPurResults, textPuritySpec, textPurityScoredSpec, h0, h1, h2,
    List.nil_append, dedupFirst]

/-- C1: the merge operation equals the claim-described procedure: score each
text-list URI absent from the relation list by token-substring overlap over
URI length, sort stably by descending score, then apply the six-way case
split on the two list lengths. -/
theorem merge_results_match_claim (query_text : String)
    (relation_results text_results : List String) :
    mergeResults query_text relation_results text_results
      = mergeSpec query_text relation_results text_results := by
  simp only [mergeResults, mergeSpec, sortingTextPur_eq_spec]

/-- Witness for merge_results_match_claim at the spec's own merge test
vector. -/
theorem merge_results_match_claim_witness :
    mergeResults "q" ["a", "b", "c", "d"] ["e", "f", "g"]
      = mergeSpec "q" ["a", "b", "c", "d"] ["e", "f", "g"] :=
  merge_results_match_claim "q" ["a", "b", "c", "d"] ["e", "f", "g"]

/-- C2 counterexample: when the exact relation query yields zero rows and
the semi query execution fails, the semi tier is invoked but the reported
mode is error, not semiRelationQuery as the claim states. -/
theorem semi_tier_failure_mode_cex :
    epSemiFail (relationQuerySparql "fkgr" (tokenizer "aaa") 10) = some [] ∧
    relationSearch epSemiFail "fkgr" "aaa" 10 = ("error", []) := by decide

/-- C2 (amended): in each strategy, when the exact-tier query yields at
least one row the semi tier is never invoked and the mode is the exact-tier
label; when the exact tier yields zero rows the semi tier is invoked, and
the mode is the semi-tier label when the semi-tier execution succeeds,
while a failing semi tier yields mode error with an empty answer. -/
theorem tier_fallback_modes (ep : String → Option (List String)) (pfxEntity q : String)
    (lim : ℕ) :
    (∀ ans, ep (relationQuerySparql pfxEntity (tokenizer q) lim) = some ans → ans ≠ [] →
      relationSearchT ep pfxEntity q lim
        = (("relationQuery", ans), [relationQuerySparql pfxEntity (tokenizer q) lim])) ∧
    (∀ ans, ep (relationQuerySparql pfxEntity (tokenizer q) lim) = some [] →
      ep (semiRelationSparql pfxEntity (tokenizer q) lim) = some ans →
      relationSearchT ep pfxEntity q lim
        = (("semiRelationQuery", ans),
            [relationQuerySparql pfxEntity (tokenizer q) lim,
              semiRelationSparql pfxEntity (tokenizer q) lim])) ∧
    (ep (relationQuerySparql pfxEntity (tokenizer q) lim) = some [] →
      ep (semiRelationSparql pfxEntity (tokenizer q) lim) = none →
      relationSearchT ep pfxEntity q lim
        = (("error", []),
            [relationQuerySparql pfxEntity (tokenizer q) lim,
              semiRelationSparql pfxEntity (tokenizer q) lim])) ∧
    (∀ ans, ep (likeQuerySparql pfxEntity (tokenizer q) lim) = some ans → ans ≠ [] →
      textSearchT ep pfxEntity q lim
        = (("likeQuery", ans), [likeQuerySparql pfxEntity (tokenizer q) lim])) ∧
    (∀ ans, ep (likeQuerySparql pfxEntity (tokenizer q) lim) = some [] →
      ep (semiLikeSparql pfxEntity (tokenizer q) lim) = some ans →
      textSearchT ep pfxEntity q lim
        = (("semiLikeQuery", ans),
            [likeQuerySparql pfxEntity (tokenizer q) lim,
              semiLikeSparql pfxEntity (tokenizer q) lim])) ∧
    (ep (likeQuerySparql pfxEntity (tokenizer q) lim) = some [] →
      ep (semiLikeSparql pfxEntity (tokenizer q) lim) = none →
      textSearchT ep pfxEntity q lim
        = (("error", []),
            [likeQuerySparql pfxEntity (tokenizer q) lim,
              semiLikeSparql pfxEntity (tokenizer q) lim])) := by
  refine ⟨?_, ?_, ?_, ?_, ?_, ?_⟩
  · intro ans h hne
    have hlen : ¬ ans.length = 0 := by simpa [List.length_eq_zero] using hne
    simp [relationSearchT, h, hlen]
  · intro ans h1 h2
    simp [relationSearchT, h1, h2]
  · intro h1 h2
    simp [relationSearchT, h1, h2]
  · intro ans h hne
    have hlen : ¬ ans.length = 0 := by simpa [List.length_eq_zero] using hne
    simp [textSearchT, h, hlen]
  · intro ans h1 h2
    simp [textSearchT, h1, h2]
  · intro h1 h2
    simp [textSearchT, h1, h2]

/-- Witness for tier_fallback_modes: an endpoint whose exact relation query
succeeds with one row reports relationQuery and issues only that query. -/
theorem tier_fallback_modes_witness :
    relationSearchT epAllX "fkgr" "aaa" 10
      = (("relationQuery", ["x"]), [relationQuerySparql "fkgr" (tokenizer "aaa") 10]) :=
  (tier_fallback_modes epAllX "fkgr" "aaa" 10).1 ["x"] rfl (by decide)

/-- A failing relation strategy reports mode error and an empty answer. -/
theorem relationSearch_error (ep : String → Option (List String)) (pfxEntity q : String)
    (lim : ℕ) (h : relFails ep pfxEntity q lim) :
    relationSearch ep pfxEntity q lim = ("error", []) := by
  rcases h with h | ⟨h1, h2⟩
  · simp [relationSearch, relationSearchT, h]
  · simp [relationSearch, relationSearchT, h1, h2]

/-- A failing text strategy reports mode error and an empty answer. -/
theorem textSearch_error (ep : String → Option (List String)) (pfxEntity q : String)
    (lim : ℕ) (h : textFails ep pfxEntity q lim) :
    textSearch ep pfxEntity q lim = ("error", []) := by
  rcases h with h | ⟨h1, h2⟩
  · simp [textSearch, textSearchT, h]
  · simp [textSearch, textSearchT, h1, h2]

/-- The text strategy depends on the endpoint only through its two text
queries. -/
theorem textSearch_congr (ep ep2 : String → Option (List String)) (pfxEntity q : String)
    (lim : ℕ)
    (h1 : ep (likeQuerySparql pfxEntity (tokenizer q) lim)
        = ep2 (likeQuerySparql pfxEntity (tokenizer q) lim))
    (h2 : ep (semiLikeSparql pfxEntity (tokenizer q) lim)
        = ep2 (semiLikeSparql pfxEntity (tokenizer q) lim)) :
    textSearch ep pfxEntity q lim = textSearch ep2 pfxEntity q lim := by
  simp only [textSearch, textSearchT, h1, h2]

/-- The relation strategy depends on the endpoint only through its two
relation queries. -/
theorem relationSearch_congr (ep ep2 : String → Option (List String)) (pfxEntity q : String)
    (lim : ℕ)
    (h1 : ep (relationQuerySparql pfxEntity (tokenizer q) lim)
        = ep2 (relationQuerySparql pfxEntity (tokenizer q) lim))
    (h2 : ep (semiRelationSparql pfxEntity (tokenizer q) lim)
        = ep2 (semiRelationSparql pfxEntity (tokenizer q) lim)) :
    relationSearch ep pfxEntity q lim = relationSearch ep2 pfxEntity q lim := by
  simp only [relationSearch, relationSearchT, h1, h2]

/-- C8: a failure of the query execution inside one strategy downgrades
that strategy to mode error with an empty answer, and the other strategy's
mode and answer in the search stage of the final result equal what they
would be against any endpoint agreeing on the other strategy's queries, in
particular one under which the first strategy does not fail. -/
theorem strategy_failure_containment (ep ep2 : String → Option (List String))
    (pfxEntity q : String) :
    (relFails ep pfxEntity q 10 →
      ep (likeQuerySparql pfxEntity (tokenizer q) 20)
          = ep2 (likeQuerySparql pfxEntity (tokenizer q) 20) →
      ep (semiLikeSparql pfxEntity (tokenizer q) 20)
          = ep2 (semiLikeSparql pfxEntity (tokenizer q) 20) →
      searchModes ep pfxEntity q = (("error", []), (searchModes ep2 pfxEntity q).2)) ∧
    (textFails ep pfxEntity q 20 →
      ep (relationQuerySparql pfxEntity (tokenizer q) 10)
          = ep2 (relationQuerySparql pfxEntity (tokenizer q) 10) →
      ep (semiRelationSparql pfxEntity (tokenizer q) 10)
          = ep2 (semiRelationSparql pfxEntity (tokenizer q) 10) →
      searchModes ep pfxEntity q = ((searchModes ep2 pfxEntity q).1, ("error", []))) := by
  constructor
  · intro hf h1 h2
    have he := relationSearch_error ep pfxEntity q 10 hf
    have hc := textSearch_congr ep ep2 pfxEntity q 20 h1 h2
    simp [searchModes, he, hc]
  · intro hf h1 h2
    have he := textSearch_error ep pfxEntity q 20 hf
    have hc := relationSearch_congr ep ep2 pfxEntity q 10 h1 h2
    simp [searchModes, he, hc]

/-- Witness for strategy_failure_containment: the relation strategy fails
under epTextOnly while the text strategy is the same as under epBothOk. -/
theorem strategy_failure_containment_witness :
    searchModes epTextOnly "fkgr" "aaa"
      = (("error", []), (searchModes epBothOk "fkgr" "aaa").2) :=
  (strategy_failure_containment epTextOnly epBothOk "fkgr" "aaa").1
    (Or.inl (by decide)) (by decide) (by decide)

/-- C9: a failed engine rebuild leaves the previously active engine in
force and signals failure, while a successful rebuild activates exactly the
fully constructed engine, index built from the successful index query. -/
theorem mode_update_atomicity (epRaw : String → Option (List (String × String)))
    (current : Engine) (mode : Prefixes) :
    (update_mode epRaw mode = none → set_mode epRaw current mode = (current, "failed", 401)) ∧
    (epRaw instanceLabelQuery = none → update_mode epRaw mode = none) ∧
    (∀ rows, epRaw instanceLabelQuery = some rows →
      update_mode epRaw mode = some ⟨serverUrl, buildIndex rows, mode⟩ ∧
      set_mode epRaw current mode = (⟨serverUrl, buildIndex rows, mode⟩, "success", 200)) := by
  refine ⟨?_, ?_, ?_⟩
  · intro h; simp [set_mode, h]
  · intro h; simp [update_mode, mkQueryRunner, h]
  · intro rows h
    have hu : update_mode epRaw mode = some ⟨serverUrl, buildIndex rows, mode⟩ := by
      simp [update_mode, mkQueryRunner, h]
    exact ⟨hu, by simp [set_mode, hu]⟩

/-- Witness for mode_update_atomicity: a raw endpoint that always raises
leaves the active engine unchanged and answers failed/401. -/
theorem mode_update_atomicity_witness :
    set_mode epRawFail engW pfxW = (engW, "failed", 401) :=
  (mode_update_atomicity epRawFail engW pfxW).1 rfl

/-- C10: when the category query of a surviving entity returns the empty
list, enrichment fails (statistics.mean over an empty score sequence) even
though the ontology list is non-empty and its index entry exists. -/
theorem empty_category_enrichment_failure (ep : String → List String)
    (index : List (String × String)) (pfx : Prefixes) (uri : String)
    (o : String) (rest : List String) (labels : String)
    (hcat : ep (categoryQuery pfx uri) = [])
    (honto : ep (ontologyQuery pfx uri) = o :: rest)
    (hidx : dictGet o index = some labels) :
    getEntityInformation ep index pfx uri = none := by
  simp [getEntityInformation, categoryScoring, hcat, honto, hidx, sortDesc, meanQ]

/-- Witness for empty_category_enrichment_failure at a concrete endpoint. -/
theorem empty_category_enrichment_failure_witness :
    getEntityInformation epNoCats [("O1", "lbl")] pfxW "http://e/E" = none :=
  empty_category_enrichment_failure epNoCats [("O1", "lbl")] pfxW "http://e/E" "O1" [] "lbl"
    (by decide) (by decide) (by decide)

/-- The mean of the scores is at most any upper bound of the scores. -/
theorem mean_le_of_ub (scored : List (String × ℚ)) (b : ℚ) (hne : scored ≠ [])
    (hub : ∀ x ∈ scored, x.2 ≤ b) : meanScore scored ≤ b := by
  have hlen : (0 : ℚ) < (scored.length : ℚ) := by
    have := List.length_pos.mpr hne
    exact_mod_cast this
  rw [meanScore, div_le_iff₀ hlen]
  have h1 : (scored.map Prod.snd).sum ≤ (scored.map Prod.snd).length • b := by
    apply List.sum_le_card_nsmul
    intro x hx
    rcases List.mem_map.mp hx with ⟨p, hp, rfl⟩
    exact hub p hp
  calc (scored.map Prod.snd).sum ≤ (scored.map Prod.snd).length • b := h1
    _ = (scored.length : ℚ) * b := by simp [nsmul_eq_mul]
    _ = b * (scored.length : ℚ) := by ring

/-- C6: for a non-empty scored-category list, the kept pairs are exactly
those scoring at least the arithmetic mean (inclusive boundary); every pair
whose score bounds all the others is kept, and every pair strictly below
the mean is dropped. -/
theorem top_category_mean_rule (scored : List (String × ℚ)) (hne : scored ≠ []) :
    (∀ p : String × ℚ,
      p ∈ scored.filter (fun p => decide (meanScore scored ≤ p.2)) ↔
        p ∈ scored ∧ meanScore scored ≤ p.2) ∧
    (∀ p ∈ scored, (∀ x ∈ scored, x.2 ≤ p.2) → p.1 ∈ topCategory scored) ∧
    (∀ p ∈ scored, p.2 < meanScore scored →
      p ∉ scored.filter (fun p => decide (meanScore scored ≤ p.2))) := by
  refine ⟨?_, ?_, ?_⟩
  · intro p; simp [List.mem_filter]
  · intro p hp hub
    have hm : meanScore scored ≤ p.2 := mean_le_of_ub scored p.2 hne hub
    simp only [topCategory]
    exact List.mem_map_of_mem _ (List.mem_filter.mpr ⟨hp, by simpa using hm⟩)
  · intro p hp hlt hmem
    have := (List.mem_filter.mp hmem).2
    simp at this
    linarith

/-- Witness for top_category_mean_rule: the maximum-scoring category is in
the top-category list. -/
theorem top_category_mean_rule_witness :
    "b" ∈ topCategory [("a", (1 : ℚ)), ("b", 3)] :=
  (top_category_mean_rule [("a", (1 : ℚ)), ("b", 3)] (by decide)).2.1 ("b", 3)
    (by decide) (by decide)

/-- The loop value of the instrumented relaxation equals the plain
amended-claim loop. -/
theorem simLoopT_fst (ep : String → List String) (base : String)
    (category : List (String × ℚ)) (entity : String) :
    ∀ (fuel : ℕ) (sim : List String),
      (simLoopT ep base category entity fuel sim).1
        = simLoopAm ep base category entity fuel sim := by
  intro fuel
  induction fuel with
  | zero => intro sim; rfl
  | succ n ih =>
    intro sim
    simp only [simLoopT, simLoopAm]
    split
    · rfl
    · simp [ih]

/-- Every category count queried by the relaxation loop lies between 1 and
the starting count. -/
theorem simLoopT_trace (ep : String → List String) (base : String)
    (category : List (String × ℚ)) (entity : String) :
    ∀ (fuel : ℕ) (sim : List String) (n : ℕ),
      n ∈ (simLoopT ep base category entity fuel sim).2 → 1 ≤ n ∧ n ≤ fuel := by
  intro fuel
  induction fuel with
  | zero => intro sim n h; simp [simLoopT] at h
  | succ m ih =>
    intro sim n h
    simp only [simLoopT] at h
    split at h
    · simp at h
      omega
    · simp at h
      rcases h with h | h
      · omega
      · have := ih _ n h
        omega

/-- The cap of __getSimilarEntries never returns more than 10 entries. -/
theorem cap_length (l : List String) :
    (if 10 < l.length then l.take 10 else l).length ≤ 10 := by
  by_cases h : 10 < l.length
  · simp [h, List.length_take]
  · simp [h]
    omega

/-- C4 (amended): with more than 3 scored categories the similarity finder
queries with the top 3, then top 2, then top 1 categories, stopping as soon
as more than 1 distinct result (original entity excluded) is obtained; the
ontology-only query is never issued in that branch (every queried category
count is between 1 and 3); with at most 3 scored categories only the
ontology-constraint query runs; the returned list always has at most 10
elements. -/
theorem similarity_relaxation_schedule (ep : String → List String) (ontology : List String)
    (category : List (String × ℚ)) (entity : String) :
    getSimilarEntries ep ontology category entity
        = getSimilarEntriesAm ep ontology category entity ∧
    (getSimilarEntries ep ontology category entity).length ≤ 10 ∧
    (3 < category.length →
      ∀ n ∈ (simLoopT ep (ontoQL ontology) category entity 3 []).2, 1 ≤ n ∧ n ≤ 3) := by
  refine ⟨?_, ?_, ?_⟩
  · simp only [getSimilarEntries, getSimilarEntriesAm, simLoopT_fst]
  · by_cases h : 3 < category.length
    · simp only [getSimilarEntries, if_pos h]
      exact cap_length _
    · simp only [getSimilarEntries, if_neg h]
      exact cap_length _
  · intro _ n hn
    exact simLoopT_trace ep (ontoQL ontology) category entity 3 [] n hn

/-- C4 counterexample: with four scored categories and an endpoint whose
only non-empty answer is the ontology-only query, the code returns the
empty list, while the claimed schedule (which ends with a top-0,
ontology-only query) would return those three entities. -/
theorem similarity_skips_ontology_only_cex :
    getSimilarEntries epRelax ontoW catsW "E" = [] ∧
    getSimilarEntriesSpec epRelax ontoW catsW "E" = ["a", "b", "c"] := by decide

/-- Witness for similarity_relaxation_schedule at the concrete relaxation
endpoint: the queried category count 3 is within bounds. -/
theorem similarity_relaxation_schedule_witness :
    getSimilarEntries epRelax ontoW catsW "E" = getSimilarEntriesAm epRelax ontoW catsW "E" ∧
    (1 ≤ 3 ∧ 3 ≤ 3) :=
  ⟨(similarity_relaxation_schedule epRelax ontoW catsW "E").1,
    (similarity_relaxation_schedule epRelax ontoW catsW "E").2.2 (by decide) 3 (by decide)⟩
